import Mathlib

/-!
Shallow embedding of `src/takeSinglePhoto.py` (single-shot thermal capture
pipeline).  Temperatures are modelled as rationals, raw frames as lists of
natural numbers, and the filesystem as a partial map from file names to file
contents.  The sensor-driver library `irpythermal` is an external collaborator:
its observable behaviour (read results, the converted temperature frame, the
calibration info) is supplied by an environment record over which theorems
quantify.
-/

namespace ThermalCapture

/-- Python truthiness of an optional string argument: `None` and the empty
string are falsy, every other string is truthy. -/
def pyTruthyStr : Option String → Bool
  | none => false
  | some s => s ≠ ""

/-- Python truthiness of an optional float argument: `None` and `0.0` are
falsy, every other value is truthy (floats modelled as rationals). -/
def pyTruthyFloat : Option ℚ → Bool
  | none => false
  | some q => q ≠ 0

/-- Python `s.endswith(suf)`: the characters of `suf` are a suffix of the
characters of `s`. -/
def pyEndsWith (s suf : String) : Bool := suf.data.isSuffixOf s.data

/-- Command-line arguments of `takeSinglePhoto.py` after parsing
(`parse_arguments`, lines 13-40).  `stabilization` is an `Int` because
`argparse` with `type=int` accepts negative values. -/
structure Args where
  rawcam : Bool
  device : Option String
  offset : Option ℚ
  stabilization : Int
  outputFolder : String
  highRange : Bool
  file : Option String

/-- Keyword options collected for `irpythermal.Camera(**camera_kwargs)`
(lines 56-64).  `cameraRaw = true` models the presence of the key
`camera_raw=True`; `videoDev` holds the device path wrapped by
`cv2.VideoCapture`; `fixedOffset` holds the `fixed_offset` value when the key
is present. -/
structure CameraKwargs where
  cameraRaw : Bool
  videoDev : Option String
  fixedOffset : Option ℚ
deriving DecidableEq, Repr

/-- The camera variant the pipeline constructs: the replay emulator over a
recorded file, or a live camera with keyword options. -/
inductive CameraVariant
  | emulator (path : String)
  | live (kw : CameraKwargs)
deriving DecidableEq, Repr

/-- Whether a constructed camera is the replay (emulator) variant. -/
def isReplay : CameraVariant → Bool
  | CameraVariant.emulator _ => true
  | CameraVariant.live _ => false

/-- The condition of line 52, `args.file and args.file.endswith(".npy")`:
a truthy positional path that ends in `.npy`. -/
def replaySelected (a : Args) : Bool :=
  match a.file with
  | none => false
  | some f => f ≠ "" && pyEndsWith f ".npy"

/-- The keyword options built on lines 56-64: `camera_raw` present iff the
raw flag is set, `video_dev` present iff the device path is truthy,
`fixed_offset` present iff the offset is truthy (line 63 tests `if
args.offset:`, so an offset of `0.0` is dropped). -/
def buildKwargs (a : Args) : CameraKwargs :=
  { cameraRaw := a.rawcam
  , videoDev := if pyTruthyStr a.device then a.device else none
  , fixedOffset := if pyTruthyFloat a.offset then a.offset else none }

/-- Camera construction (lines 52-74): the chosen variant together with the
list of temperature-range calls issued during initialization.  The
`high_range` block (lines 69-72) sits in the `else` branch, so it runs only
for the live variant. -/
def initCamera (a : Args) : CameraVariant × List String :=
  if replaySelected a then
    (CameraVariant.emulator (a.file.getD ""), [])
  else
    (CameraVariant.live (buildKwargs a),
      if a.highRange then
        ["temperature_range_high", "wait_for_range_application"]
      else [])

/-- All elements of a 2-D temperature matrix in row-major order; NumPy
reductions (`np.min`, `np.max`, ...) operate over the flattened array. -/
def elems (m : List (List ℚ)) : List ℚ := m.flatten

/-- Reduction of a nonempty flattened array by `min`, as `np.min` computes
it. -/
def reduceMin (x : ℚ) (xs : List ℚ) : ℚ := xs.foldl min x

/-- Reduction of a nonempty flattened array by `max`, as `np.max` computes
it. -/
def reduceMax (x : ℚ) (xs : List ℚ) : ℚ := xs.foldl max x

/-- The value of `np.min(temp_frame)` (line 101); `none` models the
`ValueError` NumPy raises on a zero-size array. -/
def npMin (m : List (List ℚ)) : Option ℚ :=
  match elems m with
  | [] => none
  | x :: xs => some (reduceMin x xs)

/-- The value of `np.max(temp_frame)` (line 102); `none` models the
`ValueError` NumPy raises on a zero-size array. -/
def npMax (m : List (List ℚ)) : Option ℚ :=
  match elems m with
  | [] => none
  | x :: xs => some (reduceMax x xs)

/-- The per-pixel normalization of line 117,
`(t - temp_min) / (temp_max - temp_min) * 255`, with real division modelled
as a partial operation: when the divisor `temp_max - temp_min` is zero the
division has no real value (NumPy produces `NaN`), modelled as `none`. -/
def normalizedPixel (m : List (List ℚ)) (t : ℚ) : Option ℚ :=
  match npMin m, npMax m with
  | some mn, some mx =>
      if mx - mn = 0 then none else some ((t - mn) / (mx - mn) * 255)
  | _, _ => none

/-- A uniform `h × w` matrix with every element equal to `q`. -/
def uniformFrame (h w : Nat) (q : ℚ) : List (List ℚ) :=
  List.replicate h (List.replicate w q)

/-- Rounding of a rational to the nearest integer with ties to even,
mirroring the rounding applied by Python `%.2f` formatting on exactly
representable values. -/
def roundHalfEven (q : ℚ) : ℤ :=
  let f : ℤ := ⌊q⌋
  let r : ℚ := q - f
  if r < 1 / 2 then f
  else if 1 / 2 < r then f + 1
  else if f % 2 = 0 then f else f + 1

/-- Two-digit zero-padded decimal rendering of a natural number below 100. -/
def pad2 (n : Nat) : String :=
  if n < 10 then "0" ++ toString n else toString n

/-- Python `f"{q:.2f}"`: round to the nearest hundredth and print with
exactly two digits after the decimal point. -/
def formatFix2 (q : ℚ) : String :=
  let n : ℤ := roundHalfEven (q * 100)
  (if n < 0 then "-" else "")
    ++ toString (n.natAbs / 100) ++ "." ++ pad2 (n.natAbs % 100)

/-- The exact contents written to the minmax file (lines 154-156): the
minimum then the maximum, each on its own line with two decimal places. -/
def minmaxContent (mn mx : ℚ) : String :=
  formatFix2 mn ++ "\n" ++ formatFix2 mx ++ "\n"

/-- Contents a pipeline run can leave in a file.  The image and raw numeric
artifacts are determined by the temperature frame (their byte-level encoding
is delegated to `cv2` / `np.save`); the metadata report is determined by the
listed fields (its standard-deviation line renders the square root of the
stored population variance); the minmax report is an exact string. -/
inductive FileData
  | png (m : List (List ℚ))
  | npy (m : List (List ℚ))
  | metadataTxt (ts : String) (w h : Nat) (mn mx mean variance : ℚ)
      (info : List (String × String))
  | txt (s : String)
deriving DecidableEq, Repr

/-- The filesystem: a partial map from file names to contents. -/
def FS : Type := String → Option FileData

/-- Writing a file with truncating semantics (Python `open(name, "w")`,
`cv2.imwrite`, `np.save`): any prior contents under the same name are
replaced. -/
def fsWrite (fs : FS) (name : String) (d : FileData) : FS :=
  fun n => if n = name then some d else fs n

/-- Joining the output folder with a file name as `Path(folder) / name`
renders it. -/
def joinPath (folder name : String) : String :=
  if folder = "." then name else folder ++ "/" ++ name

/-- Name of the colorized image artifact (line 123). -/
def pngName (a : Args) (ts : String) : String :=
  joinPath a.outputFolder ("thermal_" ++ ts ++ ".png")

/-- Name of the raw numeric artifact (line 128). -/
def npyName (a : Args) (ts : String) : String :=
  joinPath a.outputFolder ("thermal_" ++ ts ++ ".npy")

/-- Name of the metadata report (line 133). -/
def metaName (a : Args) (ts : String) : String :=
  joinPath a.outputFolder ("thermal_" ++ ts ++ ".txt")

/-- Name of the compact minmax report (line 153). -/
def mmName (a : Args) (ts : String) : String :=
  joinPath a.outputFolder ("thermal_" ++ ts ++ "_minmax.txt")

/-- Splitting a character list at newline characters. -/
def splitLinesAux : List Char → List Char → List String
  | [], acc => [String.mk acc.reverse]
  | c :: cs, acc =>
      if c = '\n' then String.mk acc.reverse :: splitLinesAux cs []
      else splitLinesAux cs (c :: acc)

/-- The segments of a string between newline characters; a string made of
exactly two newline-terminated lines splits into those two lines followed by
one empty segment. -/
def splitLines (s : String) : List String := splitLinesAux s.data []

/-- The arithmetic mean of the flattened matrix, `np.mean`. -/
def npMean (m : List (List ℚ)) : ℚ :=
  (elems m).sum / (elems m).length

/-- The population variance of the flattened matrix; `np.std` is its square
root. -/
def npVariance (m : List (List ℚ)) : ℚ :=
  ((elems m).map (fun t => (t - npMean m) ^ 2)).sum / (elems m).length

/-- Observable behaviour of the external camera for one run: results of the
stabilization-phase reads (index `i` is the i-th discarded read), the
success flag of the final capture read (line 88), the temperature frame
`camera.convert_to_frame(raw_frame, lut)` produces from the captured raw
frame (line 98), the calibration info mapping, the sensor dimensions, and
the timestamp string of line 113. -/
structure Env where
  stabReads : Nat → Bool × List (List Nat)
  finalRet : Bool
  tempFrame : List (List ℚ)
  camInfo : List (String × String)
  width : Nat
  height : Nat
  timestamp : String

/-- How a run of `main` ends after the camera is constructed: normal
completion (`Done!`), the reported failed final read (lines 89-92), or an
exception propagating out of `main`. -/
inductive Outcome
  | ok
  | readFailure
  | raised (msg : String)
deriving DecidableEq, Repr

/-- Observable result of a run: how it ended, how many times
`camera.release()` ran, how many stabilization reads and `time.sleep(0.01)`
pauses were issued, the error messages printed at pipeline level, the names
of artifacts written by this run, and the final filesystem. -/
structure RunResult where
  outcome : Outcome
  releases : Nat
  stabReadCount : Nat
  sleeps : Nat
  errorPrints : List String
  written : List String
  fs : FS

/-- The stabilization loop (lines 80-84): each iteration issues one
`camera.read()` whose result is discarded, then one `time.sleep(0.01)`.
Returns the count of reads and of sleeps issued. -/
def stabilizationPhase (env : Env) : Nat → Nat × Nat
  | 0 => (0, 0)
  | k + 1 =>
      let rest := stabilizationPhase env k
      let _discarded := env.stabReads k
      (rest.1 + 1, rest.2 + 1)

/-- The message of the `ValueError` NumPy raises when `np.min` is applied to
a zero-size array. -/
def zeroSizeMsg : String :=
  "ValueError: zero-size array to reduction operation minimum which has no identity"

/-- The pipeline of `main` after camera construction (lines 78-161), over
arguments `a`, camera behaviour `env` and initial filesystem `fs0`:
stabilization (`range(args.stabilization)` issues `max(N,0)` reads), the
final capture read with its guarded early return (lines 88-92, one
`release()` then `return`), the statistics of lines 101-104 (where
`np.min` of an empty frame raises a `ValueError` that nothing catches, so
it propagates out of `main` with no `release()`), and the four artifact
writes (lines 122-157) followed by the final `release()` (line 160). -/
def runPipeline (a : Args) (env : Env) (fs0 : FS) : RunResult :=
  let stab := stabilizationPhase env a.stabilization.toNat
  if env.finalRet = false then
    { outcome := Outcome.readFailure
    , releases := 1
    , stabReadCount := stab.1
    , sleeps := stab.2
    , errorPrints := ["Error: could not read frame from camera"]
    , written := []
    , fs := fs0 }
  else
    match elems env.tempFrame with
    | [] =>
        { outcome := Outcome.raised zeroSizeMsg
        , releases := 0
        , stabReadCount := stab.1
        , sleeps := stab.2
        , errorPrints := []
        , written := []
        , fs := fs0 }
    | x :: xs =>
        let mn := reduceMin x xs
        let mx := reduceMax x xs
        let ts := env.timestamp
        let fs1 := fsWrite fs0 (pngName a ts) (FileData.png env.tempFrame)
        let fs2 := fsWrite fs1 (npyName a ts) (FileData.npy env.tempFrame)
        let fs3 := fsWrite fs2 (metaName a ts)
          (FileData.metadataTxt ts env.width env.height
            mn mx (npMean env.tempFrame) (npVariance env.tempFrame)
            env.camInfo)
        let fs4 := fsWrite fs3 (mmName a ts) (FileData.txt (minmaxContent mn mx))
        { outcome := Outcome.ok
        , releases := 1
        , stabReadCount := stab.1
        , sleeps := stab.2
        , errorPrints := []
        , written := [pngName a ts, npyName a ts, metaName a ts, mmName a ts]
        , fs := fs4 }

/-- Arguments as parsed when only defaults apply: no raw flag, no device, no
offset, stabilization 10, output folder `.`, no high range, no positional
file. -/
def argsDefault : Args :=
  { rawcam := false, device := none, offset := none, stabilization := 10
  , outputFolder := ".", highRange := false, file := none }

/-- Arguments with a positional recorded-file path that does not end in
`.npy`. -/
def argsRawPath : Args := { argsDefault with file := some "recording.raw" }

/-- Arguments with a positional replay file ending in `.npy`. -/
def argsNpy : Args := { argsDefault with file := some "recording.npy" }

/-- Arguments selecting the replay file and requesting the high range. -/
def argsNpyHigh : Args := { argsNpy with highRange := true }

/-- Arguments supplying the fixed temperature offset `0.0`. -/
def argsOffsetZero : Args := { argsDefault with offset := some 0 }

/-- Arguments supplying the fixed temperature offset `5.0`. -/
def argsOffsetFive : Args := { argsDefault with offset := some 5 }

/-- A camera behaviour whose final read succeeds with a 1-pixel frame. -/
def envOk : Env :=
  { stabReads := fun _ => (true, []), finalRet := true, tempFrame := [[1]]
  , camInfo := [], width := 1, height := 1
  , timestamp := "2025-01-01_00-00-00" }

/-- A camera behaviour delivering the uniform 4 by 4 frame of 23.5 degrees
from the spec's replay scenario. -/
def envUniform : Env :=
  { envOk with tempFrame := uniformFrame 4 4 (47 / 2), width := 4, height := 4 }

/-- A camera behaviour delivering a 1-pixel frame of 23.5 degrees. -/
def envSmall : Env := { envOk with tempFrame := [[47 / 2]] }

/-- A degenerate camera: the conversion of the captured frame yields an
empty temperature matrix (zero-size sensor dimensions). -/
def envEmptyFrame : Env := { envOk with tempFrame := [], width := 0, height := 0 }

/-- A camera whose final capture read fails (`ret == False`). -/
def envReadFail : Env := { envOk with finalRet := false }

/-- The empty filesystem. -/
def fsEmpty : FS := fun _ => none

/-- A filesystem already holding a minmax file whose name collides with the
run's timestamp-derived name. -/
def fsWithOldMinmax : FS :=
  fun n =>
    if n = "thermal_2025-01-01_00-00-00_minmax.txt" then some (FileData.txt "OLD")
    else none

/-! Helper lemmas about the embedded operations. -/

theorem stabilizationPhase_eq (env : Env) (n : Nat) :
    stabilizationPhase env n = (n, n) := by
  induction n with
  | zero => rfl
  | succ k ih => simp [stabilizationPhase, ih]

theorem foldl_min_allEq (q : ℚ) (xs : List ℚ) (h : ∀ x ∈ xs, x = q) :
    xs.foldl min q = q := by
  induction xs with
  | nil => rfl
  | cons y ys ih =>
      have hy : y = q := h y (List.mem_cons_self y ys)
      have hs : ∀ x ∈ ys, x = q := fun x hx => h x (List.mem_cons_of_mem y hx)
      simp [List.foldl_cons, hy, min_self, ih hs]

theorem foldl_max_allEq (q : ℚ) (xs : List ℚ) (h : ∀ x ∈ xs, x = q) :
    xs.foldl max q = q := by
  induction xs with
  | nil => rfl
  | cons y ys ih =>
      have hy : y = q := h y (List.mem_cons_self y ys)
      have hs : ∀ x ∈ ys, x = q := fun x hx => h x (List.mem_cons_of_mem y hx)
      simp [List.foldl_cons, hy, max_self, ih hs]

theorem reduceMin_allEq (q : ℚ) (xs : List ℚ) (h : ∀ x ∈ xs, x = q) :
    reduceMin q xs = q := foldl_min_allEq q xs h

theorem reduceMax_allEq (q : ℚ) (xs : List ℚ) (h : ∀ x ∈ xs, x = q) :
    reduceMax q xs = q := foldl_max_allEq q xs h

theorem reduceMin_replicate (q : ℚ) (n : Nat) :
    reduceMin q (List.replicate n q) = q :=
  reduceMin_allEq q _ (fun _ hx => (List.eq_of_mem_replicate hx))

theorem reduceMax_replicate (q : ℚ) (n : Nat) :
    reduceMax q (List.replicate n q) = q :=
  reduceMax_allEq q _ (fun _ hx => (List.eq_of_mem_replicate hx))

theorem roundHalfEven_intCast (n : ℤ) : roundHalfEven ((n : ℤ) : ℚ) = n := by
  have h0 : ((0 : ℚ) < 1 / 2) := by norm_num
  simp [roundHalfEven, Int.floor_intCast, sub_self, h0]

theorem formatFix2_at_half23 : formatFix2 (47 / 2 : ℚ) = "23.50" := by
  have h : (47 / 2 : ℚ) * 100 = ((2350 : ℤ) : ℚ) := by norm_num
  simp only [formatFix2, h, roundHalfEven_intCast, pad2]
  norm_num
  rfl

theorem minmaxContent_at_half23 :
    minmaxContent (47 / 2 : ℚ) (47 / 2 : ℚ) = "23.50\n23.50\n" := by
  simp only [minmaxContent, formatFix2_at_half23]
  rfl

/-! Shape lemmas: the run result on each of the three exit paths. -/

theorem runPipeline_readFail (a : Args) (env : Env) (fs0 : FS)
    (h : env.finalRet = false) :
    runPipeline a env fs0 =
      { outcome := Outcome.readFailure
      , releases := 1
      , stabReadCount := a.stabilization.toNat
      , sleeps := a.stabilization.toNat
      , errorPrints := ["Error: could not read frame from camera"]
      , written := []
      , fs := fs0 } := by
  simp [runPipeline, h, stabilizationPhase_eq]

theorem runPipeline_raised (a : Args) (env : Env) (fs0 : FS)
    (h1 : env.finalRet = true) (h2 : elems env.tempFrame = []) :
    runPipeline a env fs0 =
      { outcome := Outcome.raised zeroSizeMsg
      , releases := 0
      , stabReadCount := a.stabilization.toNat
      , sleeps := a.stabilization.toNat
      , errorPrints := []
      , written := []
      , fs := fs0 } := by
  simp [runPipeline, h1, h2, stabilizationPhase_eq]

theorem runPipeline_ok (a : Args) (env : Env) (fs0 : FS) (x : ℚ) (xs : List ℚ)
    (h1 : env.finalRet = true) (h2 : elems env.tempFrame = x :: xs) :
    runPipeline a env fs0 =
      { outcome := Outcome.ok
      , releases := 1
      , stabReadCount := a.stabilization.toNat
      , sleeps := a.stabilization.toNat
      , errorPrints := []
      , written :=
          [pngName a env.timestamp, npyName a env.timestamp,
            metaName a env.timestamp, mmName a env.timestamp]
      , fs :=
          fsWrite
            (fsWrite
              (fsWrite
                (fsWrite fs0 (pngName a env.timestamp)
                  (FileData.png env.tempFrame))
                (npyName a env.timestamp) (FileData.npy env.tempFrame))
              (metaName a env.timestamp)
              (FileData.metadataTxt env.timestamp env.width env.height
                (reduceMin x xs) (reduceMax x xs) (npMean env.tempFrame)
                (npVariance env.tempFrame) env.camInfo))
            (mmName a env.timestamp)
            (FileData.txt (minmaxContent (reduceMin x xs) (reduceMax x xs))) } := by
  simp [runPipeline, h1, h2, stabilizationPhase_eq]

theorem runPipeline_stabReads_irrel (a : Args) (env : Env) (fs0 : FS)
    (f g : Nat → Bool × List (List Nat)) :
    runPipeline a { env with stabReads := f } fs0
      = runPipeline a { env with stabReads := g } fs0 := by
  simp [runPipeline, stabilizationPhase_eq]

/-! Claim theorems. -/

/-- C1: the claim states that for a temperature matrix whose elements are
all equal the normalized rendering maps every element to the output value 0
and no division by zero occurs.  On the code (line 117) the divisor
`temp_max - temp_min` is zero for such a matrix, so the normalization does
divide by zero: for the uniform 2 by 2 frame of 23.5 degrees the normalized
pixel value is undefined (NumPy yields `NaN`), not 0, and no guard maps the
elements to 0. -/
theorem C1_uniform_matrix_division_by_zero :
    npMin (uniformFrame 2 2 (47 / 2)) = some (47 / 2)
    ∧ npMax (uniformFrame 2 2 (47 / 2)) = some (47 / 2)
    ∧ normalizedPixel (uniformFrame 2 2 (47 / 2)) (47 / 2) = none := by
  have he : elems (uniformFrame 2 2 (47 / 2 : ℚ))
      = (47 / 2 : ℚ) :: List.replicate 3 (47 / 2 : ℚ) := rfl
  have hmin : npMin (uniformFrame 2 2 (47 / 2 : ℚ)) = some (47 / 2) := by
    simp [npMin, he, reduceMin, min_self]
  have hmax : npMax (uniformFrame 2 2 (47 / 2 : ℚ)) = some (47 / 2) := by
    simp [npMax, he, reduceMax, max_self]
  refine ⟨hmin, hmax, ?_⟩
  simp [normalizedPixel, hmin, hmax]

/-- C2 counterexample: on the concrete run whose conversion yields an empty
temperature matrix, an error is raised between open and exit (the
`ValueError` of `np.min`), it propagates out of `main`, and
`camera.release()` is invoked zero times, not exactly once: the claim that
release happens on any unexpected-error exit path is false. -/
theorem C2_counterexample_release_skipped_on_error :
    (runPipeline argsDefault envEmptyFrame fsEmpty).outcome
        = Outcome.raised zeroSizeMsg
    ∧ (runPipeline argsDefault envEmptyFrame fsEmpty).releases = 0 := by
  rw [runPipeline_raised argsDefault envEmptyFrame fsEmpty rfl rfl]
  exact ⟨rfl, rfl⟩

/-- C2 amended: `camera.release()` is invoked exactly once on the successful
exit path and on the failed-final-read exit path; but when an error is
raised between open and exit (the code has no `try/finally`), the error
propagates and `release()` is invoked zero times. -/
theorem C2_release_on_exit_paths (a : Args) (env : Env) (fs0 : FS) :
    (((runPipeline a env fs0).outcome = Outcome.ok
        ∨ (runPipeline a env fs0).outcome = Outcome.readFailure)
      → (runPipeline a env fs0).releases = 1)
    ∧ ∀ msg, (runPipeline a env fs0).outcome = Outcome.raised msg
      → (runPipeline a env fs0).releases = 0 := by
  cases hf : env.finalRet with
  | false =>
      rw [runPipeline_readFail a env fs0 hf]
      exact ⟨fun _ => rfl, fun msg hmsg => Outcome.noConfusion hmsg⟩
  | true =>
      cases he : elems env.tempFrame with
      | nil =>
          rw [runPipeline_raised a env fs0 hf he]
          refine ⟨fun hor => ?_, fun msg _ => rfl⟩
          rcases hor with h | h <;> exact Outcome.noConfusion h
      | cons x xs =>
          rw [runPipeline_ok a env fs0 x xs hf he]
          exact ⟨fun _ => rfl, fun msg hmsg => Outcome.noConfusion hmsg⟩

/-- C2 witness: on a concrete successful run the camera is released exactly
once. -/
theorem C2_release_on_exit_paths_witness :
    (runPipeline argsDefault envOk fsEmpty).releases = 1 :=
  (C2_release_on_exit_paths argsDefault envOk fsEmpty).1
    (Or.inl (by rw [runPipeline_ok argsDefault envOk fsEmpty 1 [] rfl rfl]))

/-- C3: when the final capture read fails, the pipeline prints the error
message, releases the camera exactly once, ends without writing any of the
four artifacts (the filesystem is unchanged), and no exception propagates
past the pipeline boundary. -/
theorem C3_read_failure_reported_and_released (a : Args) (env : Env) (fs0 : FS)
    (h : env.finalRet = false) :
    (runPipeline a env fs0).outcome = Outcome.readFailure
    ∧ (runPipeline a env fs0).errorPrints
        = ["Error: could not read frame from camera"]
    ∧ (runPipeline a env fs0).releases = 1
    ∧ (runPipeline a env fs0).written = []
    ∧ (runPipeline a env fs0).fs = fs0
    ∧ ∀ msg, (runPipeline a env fs0).outcome ≠ Outcome.raised msg := by
  rw [runPipeline_readFail a env fs0 h]
  exact ⟨rfl, rfl, rfl, rfl, rfl, fun msg hmsg => Outcome.noConfusion hmsg⟩

/-- C3 witness: the failed-final-read behaviour on a concrete run. -/
theorem C3_read_failure_witness :
    (runPipeline argsDefault envReadFail fsEmpty).outcome = Outcome.readFailure
    ∧ (runPipeline argsDefault envReadFail fsEmpty).errorPrints
        = ["Error: could not read frame from camera"]
    ∧ (runPipeline argsDefault envReadFail fsEmpty).releases = 1
    ∧ (runPipeline argsDefault envReadFail fsEmpty).written = []
    ∧ (runPipeline argsDefault envReadFail fsEmpty).fs = fsEmpty
    ∧ ∀ msg, (runPipeline argsDefault envReadFail fsEmpty).outcome
        ≠ Outcome.raised msg :=
  C3_read_failure_reported_and_released argsDefault envReadFail fsEmpty rfl

/-- C4 counterexample: on the concrete run with an empty temperature matrix
the failure is not caught anywhere: the run ends with the `ValueError`
propagating out of `main` (and the camera is not even released), refuting
the claim that the failure is caught before the statistics are computed. -/
theorem C4_counterexample_error_not_caught :
    (runPipeline argsNpy envEmptyFrame fsEmpty).outcome
        = Outcome.raised zeroSizeMsg
    ∧ (runPipeline argsNpy envEmptyFrame fsEmpty).releases = 0
    ∧ (runPipeline argsNpy envEmptyFrame fsEmpty).written = [] := by
  rw [runPipeline_raised argsNpy envEmptyFrame fsEmpty rfl rfl]
  exact ⟨rfl, rfl, rfl⟩

/-- C4 amended: on an empty temperature matrix the first statistics
reduction (`np.min`, line 101) raises a `ValueError`; the error is caught
nowhere in the pipeline, so it propagates past the pipeline boundary; no
statistics are produced, no artifacts are written, and the camera is not
released. -/
theorem C4_empty_matrix_raises (a : Args) (env : Env) (fs0 : FS)
    (h1 : env.finalRet = true) (h2 : elems env.tempFrame = []) :
    (runPipeline a env fs0).outcome = Outcome.raised zeroSizeMsg
    ∧ (runPipeline a env fs0).written = []
    ∧ (runPipeline a env fs0).fs = fs0
    ∧ (runPipeline a env fs0).releases = 0 := by
  rw [runPipeline_raised a env fs0 h1 h2]
  exact ⟨rfl, rfl, rfl, rfl⟩

/-- C4 witness: the empty-matrix behaviour on a concrete run. -/
theorem C4_empty_matrix_raises_witness :
    (runPipeline argsDefault envEmptyFrame fsWithOldMinmax).outcome
        = Outcome.raised zeroSizeMsg
    ∧ (runPipeline argsDefault envEmptyFrame fsWithOldMinmax).written = []
    ∧ (runPipeline argsDefault envEmptyFrame fsWithOldMinmax).fs = fsWithOldMinmax
    ∧ (runPipeline argsDefault envEmptyFrame fsWithOldMinmax).releases = 0 :=
  C4_empty_matrix_raises argsDefault envEmptyFrame fsWithOldMinmax rfl rfl

/-- C5: with a caller-supplied stabilization count `N >= 0` the
stabilization phase issues exactly `N` reads, each followed by one pause;
when `N` is zero no stabilization read happens; and the results of the
discard-phase reads are irrelevant to the whole run (in particular a
failure returned by a discard-phase read does not abort the run). -/
theorem C5_stabilization_phase (a : Args) (env : Env) (fs0 : FS) (n : Nat)
    (h : a.stabilization = Int.ofNat n) :
    (runPipeline a env fs0).stabReadCount = n
    ∧ (runPipeline a env fs0).sleeps = n
    ∧ (n = 0 → (runPipeline a env fs0).stabReadCount = 0)
    ∧ ∀ f g, runPipeline a { env with stabReads := f } fs0
        = runPipeline a { env with stabReads := g } fs0 := by
  have hcounts : (runPipeline a env fs0).stabReadCount = a.stabilization.toNat
      ∧ (runPipeline a env fs0).sleeps = a.stabilization.toNat := by
    cases hf : env.finalRet with
    | false => rw [runPipeline_readFail a env fs0 hf]; exact ⟨rfl, rfl⟩
    | true =>
        cases he : elems env.tempFrame with
        | nil => rw [runPipeline_raised a env fs0 hf he]; exact ⟨rfl, rfl⟩
        | cons x xs => rw [runPipeline_ok a env fs0 x xs hf he]; exact ⟨rfl, rfl⟩
  have hn : a.stabilization.toNat = n := by rw [h]; rfl
  exact ⟨hcounts.1.trans hn, hcounts.2.trans hn,
    fun h0 => (hcounts.1.trans hn).trans h0,
    fun f g => runPipeline_stabReads_irrel a env fs0 f g⟩

/-- C5 witness: the default stabilization count 10 issues exactly ten reads
and ten pauses on a concrete run, and swapping the discard-phase read
results for all-failing ones changes nothing. -/
theorem C5_stabilization_phase_witness :
    (runPipeline argsDefault envOk fsEmpty).stabReadCount = 10
    ∧ (runPipeline argsDefault envOk fsEmpty).sleeps = 10
    ∧ (10 = 0 → (runPipeline argsDefault envOk fsEmpty).stabReadCount = 0)
    ∧ ∀ f g, runPipeline argsDefault { envOk with stabReads := f } fsEmpty
        = runPipeline argsDefault { envOk with stabReads := g } fsEmpty :=
  C5_stabilization_phase argsDefault envOk fsEmpty 10 rfl

/-- C6 counterexample: with the positional recorded-file path
`recording.raw` the pipeline does not switch to the replay variant: the
positional path is supplied yet a live camera is constructed, because line
52 also requires the path to end in `.npy`. -/
theorem C6_counterexample_non_npy_path :
    argsRawPath.file = some "recording.raw"
    ∧ isReplay (initCamera argsRawPath).1 = false := by
  exact ⟨rfl, rfl⟩

/-- C6 amended: the replay (emulator) variant is selected exactly when the
positional path is supplied, nonempty, and ends in `.npy`; such a path
yields the emulator backed by that file, and any other invocation yields
the live camera. -/
theorem C6_replay_variant_selection (a : Args) :
    (isReplay (initCamera a).1 = true ↔ replaySelected a = true)
    ∧ (∀ f, a.file = some f → f ≠ "" → pyEndsWith f ".npy" = true →
        (initCamera a).1 = CameraVariant.emulator f)
    ∧ (replaySelected a = false →
        (initCamera a).1 = CameraVariant.live (buildKwargs a)) := by
  refine ⟨?_, ?_, ?_⟩
  · cases hr : replaySelected a <;> simp [initCamera, isReplay, hr]
  · intro f hf hne hend
    have hr : replaySelected a = true := by
      simp [replaySelected, hf, hne, hend]
    simp [initCamera, hr, hf]
  · intro hr
    simp [initCamera, hr]

/-- C6 witness: a positional `.npy` path selects the emulator backed by
that file. -/
theorem C6_replay_variant_selection_witness :
    (initCamera argsNpy).1 = CameraVariant.emulator "recording.npy" :=
  (C6_replay_variant_selection argsNpy).2.1 "recording.npy" rfl
    (by decide) (by decide)

/-- C7 counterexample: a file named after the run's timestamp-derived
minmax name already exists with contents `OLD`; after the run its prior
contents are replaced by the new minmax report, so the claim that prior
contents are not replaced is false. -/
theorem C7_counterexample_minmax_overwritten :
    fsWithOldMinmax "thermal_2025-01-01_00-00-00_minmax.txt"
        = some (FileData.txt "OLD")
    ∧ (runPipeline argsDefault envSmall fsWithOldMinmax).fs
        "thermal_2025-01-01_00-00-00_minmax.txt"
        = some (FileData.txt "23.50\n23.50\n")
    ∧ FileData.txt "23.50\n23.50\n" ≠ FileData.txt "OLD" := by
  refine ⟨rfl, ?_, by decide⟩
  rw [runPipeline_ok argsDefault envSmall fsWithOldMinmax (47 / 2) [] rfl rfl]
  show some (FileData.txt (minmaxContent (47 / 2) (47 / 2)))
      = some (FileData.txt "23.50\n23.50\n")
  rw [minmaxContent_at_half23]

/-- C7 amended: the writer does overwrite existing files whose names collide
with the run's timestamp-derived base name: every artifact write truncates
(`open(..., "w")`, `cv2.imwrite`, `np.save`), so a pre-existing file under
the minmax name holds the new report after a successful run, whatever its
prior contents were. -/
theorem C7_collision_overwrites (a : Args) (env : Env) (fs0 : FS) (x : ℚ)
    (xs : List ℚ) (d : FileData)
    (h1 : env.finalRet = true) (h2 : elems env.tempFrame = x :: xs)
    (_h3 : fs0 (mmName a env.timestamp) = some d) :
    (runPipeline a env fs0).fs (mmName a env.timestamp)
      = some (FileData.txt (minmaxContent (reduceMin x xs) (reduceMax x xs))) := by
  rw [runPipeline_ok a env fs0 x xs h1 h2]
  simp [fsWrite]

/-- C7 witness: the overwrite on the concrete colliding filesystem. -/
theorem C7_collision_overwrites_witness :
    (runPipeline argsDefault envSmall fsWithOldMinmax).fs
        (mmName argsDefault envSmall.timestamp)
      = some (FileData.txt (minmaxContent (reduceMin (47 / 2) [])
          (reduceMax (47 / 2) []))) :=
  C7_collision_overwrites argsDefault envSmall fsWithOldMinmax (47 / 2) []
    (FileData.txt "OLD") rfl rfl rfl

/-- C8: after every successful capture the minmax artifact holds exactly the
minimum then the maximum, each formatted to two decimal places and each
terminated by a newline; and for the uniform 4 by 4 frame of 23.5 degrees
its contents are exactly `23.50\n23.50\n`, which splits at newlines into
exactly the two lines `23.50`, `23.50` (plus the empty segment after the
final newline). -/
theorem C8_minmax_two_lines (a : Args) (env : Env) (fs0 : FS) (x : ℚ)
    (xs : List ℚ) (h1 : env.finalRet = true)
    (h2 : elems env.tempFrame = x :: xs) :
    (runPipeline a env fs0).fs (mmName a env.timestamp)
      = some (FileData.txt
          (formatFix2 (reduceMin x xs) ++ "\n"
            ++ formatFix2 (reduceMax x xs) ++ "\n"))
    ∧ (env.tempFrame = uniformFrame 4 4 (47 / 2) →
        (runPipeline a env fs0).fs (mmName a env.timestamp)
          = some (FileData.txt "23.50\n23.50\n")
        ∧ splitLines "23.50\n23.50\n" = ["23.50", "23.50", ""]) := by
  have hmm : (runPipeline a env fs0).fs (mmName a env.timestamp)
      = some (FileData.txt (minmaxContent (reduceMin x xs) (reduceMax x xs))) := by
    rw [runPipeline_ok a env fs0 x xs h1 h2]
    simp [fsWrite]
  refine ⟨hmm, fun hu => ⟨?_, rfl⟩⟩
  rw [hu] at h2
  have hx : (47 / 2 : ℚ) :: List.replicate 15 (47 / 2 : ℚ) = x :: xs := by
    rw [← h2]; rfl
  injection hx with hx1 hx2
  rw [hmm, ← hx1, ← hx2, reduceMin_replicate, reduceMax_replicate,
    minmaxContent_at_half23]

/-- C8 witness: the replay scenario of the spec on a concrete run. -/
theorem C8_minmax_two_lines_witness :
    (runPipeline argsDefault envUniform fsEmpty).fs
        (mmName argsDefault envUniform.timestamp)
      = some (FileData.txt "23.50\n23.50\n")
    ∧ splitLines "23.50\n23.50\n" = ["23.50", "23.50", ""] :=
  (C8_minmax_two_lines argsDefault envUniform fsEmpty (47 / 2)
      (List.replicate 15 (47 / 2)) rfl rfl).2 rfl

/-- C9: supplying the fixed temperature offset `0.0` constructs the camera
exactly as if no offset had been supplied (line 63 tests `if args.offset:`,
and `0.0` is falsy), while any nonzero offset is passed through as the
`fixed_offset` keyword. -/
theorem C9_zero_offset_dropped (a : Args) :
    (a.offset = some 0 → initCamera a = initCamera { a with offset := none })
    ∧ ∀ q, a.offset = some q → q ≠ 0 →
        (buildKwargs a).fixedOffset = some q := by
  constructor
  · intro h
    have hb : buildKwargs a = buildKwargs { a with offset := none } := by
      simp [buildKwargs, pyTruthyFloat, h]
    unfold initCamera
    rw [hb]
    rfl
  · intro q hq hne
    simp [buildKwargs, pyTruthyFloat, hq, hne]

/-- C9 witness: offset `0.0` yields the same camera construction as no
offset, and offset `5.0` is passed through. -/
theorem C9_zero_offset_dropped_witness :
    initCamera argsOffsetZero = initCamera { argsOffsetZero with offset := none }
    ∧ (buildKwargs argsOffsetFive).fixedOffset = some 5 :=
  ⟨(C9_zero_offset_dropped argsOffsetZero).1 rfl,
    (C9_zero_offset_dropped argsOffsetFive).2 5 rfl (by norm_num)⟩

/-- C10: when the replay (emulator) variant is selected no temperature-range
call is issued (neither `temperature_range_high` nor
`wait_for_range_application`); range-switch calls happen only for the live
variant, and only when the high-range flag is set. -/
theorem C10_replay_ignores_high_range (a : Args) :
    (isReplay (initCamera a).1 = true → (initCamera a).2 = [])
    ∧ ((initCamera a).2 ≠ [] →
        a.highRange = true
        ∧ (initCamera a).1 = CameraVariant.live (buildKwargs a)) := by
  cases hr : replaySelected a with
  | false =>
      cases hh : a.highRange with
      | false => simp [initCamera, isReplay, hr, hh]
      | true => simp [initCamera, isReplay, hr, hh]
  | true => simp [initCamera, isReplay, hr]

/-- C10 witness: a replay invocation that also sets the high-range flag
still issues no range calls. -/
theorem C10_replay_ignores_high_range_witness :
    (initCamera argsNpyHigh).2 = [] :=
  (C10_replay_ignores_high_range argsNpyHigh).1 rfl

end ThermalCapture
